import Mathlib

/-!
# Shallow embedding of the certifi-be certification API

This file embeds, in Lean, the request handlers and utilities of the
certifi-be repository (an Express document-certification API) and proves
properties of them.  External collaborators (the chain RPC client, the
object store, the AI service, the bcrypt primitive, the ECDSA primitive,
the document database) are modelled as explicit oracle parameters of each
handler; a call that can throw in the source is modelled with `Except`.
JavaScript string semantics (truthiness of the empty string, `trim`,
`split`, `toUpperCase`, `toLowerCase`, `startsWith`) are modelled by
executable structural definitions over the character list of a `String`,
so that every definition evaluates on concrete inputs.
-/

deriving instance DecidableEq for Except

namespace Certifi

/-- A file buffer, as a list of bytes. -/
abbrev Bytes := List Nat

/-! ## JavaScript string primitives -/

/-- Drop leading whitespace characters from a character list. -/
def trimLeftList : List Char → List Char
  | [] => []
  | c :: cs => if c.isWhitespace then trimLeftList cs else c :: cs

/-- JS `String.prototype.trim`: drop leading and trailing whitespace. -/
def jsTrim (s : String) : String :=
  String.mk ((trimLeftList (trimLeftList s.toList).reverse).reverse)

/-- JS `String.prototype.startsWith`. -/
def jsStartsWith (s p : String) : Bool :=
  p.toList.isPrefixOf s.toList

/-- JS `String.prototype.toUpperCase` (ASCII, as used on file extensions). -/
def jsToUpper (s : String) : String :=
  String.mk (s.toList.map Char.toUpper)

/-- JS `String.prototype.toLowerCase` (ASCII, as used on email addresses). -/
def jsToLower (s : String) : String :=
  String.mk (s.toList.map Char.toLower)

/-- JS `String.prototype.split` with a one-character separator: splitting
never yields the empty list (`"".split(x) = [""]`). -/
def splitOnCharList (sep : Char) : List Char → List (List Char)
  | [] => [[]]
  | c :: cs =>
    let rest := splitOnCharList sep cs
    if c = sep then [] :: rest
    else
      match rest with
      | [] => [[c]]
      | r :: rs => (c :: r) :: rs

/-- JS `s.split(sep)` for a one-character separator, on strings. -/
def jsSplitOnChar (sep : Char) (s : String) : List String :=
  (splitOnCharList sep s.toList).map String.mk

/-- JS truthiness of an optional string: `undefined` and `""` are falsy. -/
def optTruthy : Option String → Bool
  | none => false
  | some s => !s.isEmpty

/-- JS `a || b` for an optional string `a` falling back to the string `b`
(used for `qrPayload?.sig || certificate.signature` and similar). -/
def jsOrStr (a : Option String) (b : String) : String :=
  match a with
  | some s => if s.isEmpty then b else s
  | none => b

/-- JS `a || b` for two optional strings (the result may still be absent). -/
def jsOrOpt (a b : Option String) : Option String :=
  if optTruthy a then a else b

/-! ## Chain client (`src/utils/blockchain.ts`) -/

/-- `normalizeBytes32` from `src/utils/blockchain.ts`: trims the input,
accepts a 66-character `0x`-prefixed string unchanged and a 64-character
string with `0x` prepended, and throws a descriptive error otherwise.
The source checks only lengths, not that the characters are hex. -/
def normalizeBytes32 (hash : String) : Except String String :=
  if hash.isEmpty then
    .error "Hash non valido o vuoto"
  else if jsStartsWith (jsTrim hash) "0x" then
    if (jsTrim hash).length ≠ 66 then
      .error "L'hash deve essere un hex di 32 byte (66 caratteri con 0x)"
    else
      .ok (jsTrim hash)
  else if (jsTrim hash).length ≠ 64 then
    .error "L'hash deve contenere 64 caratteri hex (32 byte)"
  else
    .ok ("0x" ++ jsTrim hash)

/-- The read-only contract handle: `contract.verify(bytes32)` may throw
(RPC failure, missing environment configuration), modelled as `Except`. -/
structure ChainReader where
  verify : String → Except String Bool

/-- `verifyHashOnChain` from `src/utils/blockchain.ts`: normalizes the
digest and queries the contract, catching every error and returning
`false` in that case. -/
def verifyHashOnChain (chain : ChainReader) (hash : String) : Bool :=
  match normalizeBytes32 hash with
  | .error _ => false
  | .ok normalizedHash =>
    match chain.verify normalizedHash with
    | .error _ => false
    | .ok b => b

/-- `verifyOnChain` from `src/utils/blockchain.ts` (deprecated wrapper):
its `exists` field comes from `verifyHashOnChain`. -/
def verifyOnChain (chain : ChainReader) (hash : String) : Bool :=
  verifyHashOnChain chain hash

/-! ### Spec-side characterization used to check claim C6 -/

/-- A hex character, per the claim's words: `0-9a-fA-F`. -/
def isHexChar (c : Char) : Bool :=
  (Char.isDigit c) || (('a' ≤ c && c ≤ 'f') || ('A' ≤ c && c ≤ 'F'))

/-- The claim's notion of a well-formed digest: exactly 64 hex characters. -/
def isHexDigest64 (s : String) : Bool :=
  s.length == 64 && s.toList.all isHexChar

/-- A 64-character string of `'z'`: not hex, but length 64. -/
def z64 : String := String.mk (List.replicate 64 'z')

/-- A 64-character string of `'a'`: a well-formed lowercase hex digest. -/
def a64 : String := String.mk (List.replicate 64 'a')

/-! ## Signature utility (`src/utils/signature.ts`) -/

/-- The node `crypto` ECDSA primitive, modelled abstractly: `sign` takes a
private key and the data string, `verify` takes a public key, the data
string and a signature.  The source fixes the curve and digest; here the
primitive is an oracle. -/
structure SigPrimitive where
  sign : String → String → String
  verify : String → String → String → Bool

/-- The server key pair held in process configuration
(`SERVER_PRIVATE_KEY` / `SERVER_PUBLIC_KEY`, empty when unset). -/
structure KeyConfig where
  privateKey : String
  publicKey : String

/-- `signHash`: throws when the private key is not configured, otherwise
signs the digest string with the server private key. -/
def signHash (prim : SigPrimitive) (cfg : KeyConfig) (hash : String) :
    Except String String :=
  if cfg.privateKey.isEmpty then .error "SERVER_PRIVATE_KEY non configurata"
  else .ok (prim.sign cfg.privateKey hash)

/-- `verifySignature`: throws when the public key is not configured,
otherwise checks the signature against the digest string. -/
def verifySignature (prim : SigPrimitive) (cfg : KeyConfig)
    (hash signature : String) : Except String Bool :=
  if cfg.publicKey.isEmpty then .error "SERVER_PUBLIC_KEY non configurata"
  else .ok (prim.verify cfg.publicKey hash signature)

/-- The `try { verifySignature(...) } catch { checks.signature = false }`
boundary used by every verify handler: a thrown error becomes `false`. -/
def verifySignatureCaught (prim : SigPrimitive) (cfg : KeyConfig)
    (hash signature : String) : Bool :=
  match verifySignature prim cfg hash signature with
  | .error _ => false
  | .ok b => b

/-- A deterministic, correct and unforgeable signature scheme over the
given key pair, as the spec describes the ECDSA collaborator: the
round-trip verifies, and a tampered digest or tampered signature fails. -/
def CorrectScheme (prim : SigPrimitive) (cfg : KeyConfig) : Prop :=
  (∀ d, prim.verify cfg.publicKey d (prim.sign cfg.privateKey d) = true) ∧
  (∀ d d', d' ≠ d → prim.verify cfg.publicKey d' (prim.sign cfg.privateKey d) = false) ∧
  (∀ d s, s ≠ prim.sign cfg.privateKey d → prim.verify cfg.publicKey d s = false)

/-! ## Certify flow (`src/routes/certify.ts`) -/

/-- A multer in-memory upload: buffer, original filename and MIME type. -/
structure UploadedFile where
  buffer : Bytes
  originalname : String
  mimetype : String
deriving DecidableEq, Repr

/-- The `POST /certify` request: optional file, optional `document_id`
and `requested_tasks` body fields. -/
structure CertifyRequest where
  file : Option UploadedFile
  document_id : Option String
  requested_tasks : Option (List String)
deriving DecidableEq, Repr

/-- The structured result relayed from the AI analysis service. -/
structure AIResult where
  document_type : Option String
  compliance_score : Option Nat
deriving DecidableEq, Repr

/-- The request `analyzeDocument` posts to the AI service. -/
structure AIRequest where
  document_id : String
  hash : String
  fileBuffer : Bytes
  fileName : String
  contentType : String
  requested_tasks : List String
deriving DecidableEq, Repr

/-- The fields `formatBlockchainError` extracts from a thrown write error. -/
structure BlockchainErrorInfo where
  code : Option String
  shortMessage : Option String
  message : Option String
deriving DecidableEq, Repr

/-- Observable side effects of a handler run, in order. -/
inductive Effect where
  | chainRead (hash : String)
  | aiCall (hash : String)
  | chainWrite (hash : String)
  | signed (hash : String)
  | dbWrite (hash : String)
deriving DecidableEq, Repr

/-- The QR payload built at certify time. -/
structure QrPayload where
  iss : String
  hash : String
  ts : Nat
  docType : String
  chainId : String
  contract : String
  sig : String
deriving DecidableEq, Repr

/-- The serialized `POST /certify` response (fields absent on a path are
`none`). -/
structure CertifyResponse where
  status : Nat
  success : Option Bool
  error : Option String
  hash : Option String
  txHash : Option String
  signature : Option String
  timestamp : Option Nat
  docType : Option String
  qrPayload : Option QrPayload
deriving DecidableEq, Repr

/-- The oracles and configuration a certify request runs against. -/
structure CertifyEnv where
  hashFn : Bytes → String
  chain : ChainReader
  ai : AIRequest → Except String AIResult
  store : String → Except BlockchainErrorInfo String
  sigPrim : SigPrimitive
  keys : KeyConfig
  now : Nat
  issuer : String
  chainId : String
  contractAddress : String

/-- `docType` derivation from `certify.ts`:
`file.originalname.split(".").pop()?.toUpperCase() || "UNKNOWN"`. -/
def docTypeOf (originalname : String) : String :=
  let ext := (jsSplitOnChar '.' originalname).getLastD ""
  if ext.isEmpty then "UNKNOWN" else jsToUpper ext

/-- The default task list `analyzeDocument` sends when none is requested. -/
def defaultTasks : List String :=
  ["classify", "extract", "claims", "holder", "compliance_score"]

/-- `certifyFile` from `src/routes/certify.ts` (the variant with the AI
analysis step): hash, duplicate check, AI analysis, chain write, sign,
respond.  Returns the response together with the ordered side effects. -/
def certifyFile (env : CertifyEnv) (req : CertifyRequest) :
    CertifyResponse × List Effect :=
  match req.file with
  | none =>
    ({ status := 400, success := none, error := some "File non fornito",
       hash := none, txHash := none, signature := none, timestamp := none,
       docType := none, qrPayload := none }, [])
  | some file =>
    let hash := env.hashFn file.buffer
    if verifyHashOnChain env.chain hash then
      ({ status := 409, success := some false,
         error := some "File già certificato", hash := some hash,
         txHash := none, signature := none, timestamp := none,
         docType := none, qrPayload := none }, [.chainRead hash])
    else
      let documentId := jsOrStr req.document_id ("doc_" ++ toString env.now)
      let tasks := req.requested_tasks.getD defaultTasks
      let contentType :=
        if file.mimetype.isEmpty then "application/octet-stream"
        else file.mimetype
      match env.ai { document_id := documentId, hash := hash,
                     fileBuffer := file.buffer, fileName := file.originalname,
                     contentType := contentType, requested_tasks := tasks } with
      | .error _ =>
        ({ status := 502, success := some false,
           error := some "Analisi AI fallita", hash := none, txHash := none,
           signature := none, timestamp := none, docType := none,
           qrPayload := none }, [.chainRead hash, .aiCall hash])
      | .ok _ =>
        match env.store hash with
        | .error _ =>
          ({ status := 502, success := some false,
             error := some "Scrittura on-chain fallita", hash := none,
             txHash := none, signature := none, timestamp := none,
             docType := none, qrPayload := none },
           [.chainRead hash, .aiCall hash, .chainWrite hash])
        | .ok txHash =>
          match signHash env.sigPrim env.keys hash with
          | .error _ =>
            ({ status := 500, success := none,
               error := some "Errore durante la certificazione", hash := none,
               txHash := none, signature := none, timestamp := none,
               docType := none, qrPayload := none },
             [.chainRead hash, .aiCall hash, .chainWrite hash])
          | .ok signature =>
            let timestamp := env.now
            let docType := docTypeOf file.originalname
            ({ status := 200, success := some true, error := none,
               hash := some hash, txHash := some txHash,
               signature := some signature, timestamp := some timestamp,
               docType := some docType,
               qrPayload := some { iss := env.issuer, hash := hash,
                                   ts := timestamp, docType := docType,
                                   chainId := env.chainId,
                                   contract := env.contractAddress,
                                   sig := signature } },
             [.chainRead hash, .aiCall hash, .chainWrite hash, .signed hash])

/-! ## Verify flow (`src/routes/verify.ts` and its two source variants) -/

/-- A persisted certificate record (`data/certificates.json` entry). -/
structure CertificateRecord where
  hash : String
  fileKey : String
  txHash : String
  timestamp : Nat
  docType : String
  signature : String
deriving DecidableEq, Repr

/-- The sanitized certificate fields echoed by the verify responses. -/
structure CertificateView where
  fileKey : String
  txHash : String
  timestamp : Nat
  docType : String
deriving DecidableEq, Repr

/-- The QR payload parsed from the base64 `p` query parameter
(`JSON.parse` of the decoded string); absent JSON fields are `none`. -/
structure ParsedPayload where
  hash : Option String
  sig : Option String
  presignedUrl : Option String
deriving DecidableEq, Repr

/-- The `GET /verify` query: `hash` and/or `p`. -/
structure VerifyGetRequest where
  hash : Option String
  p : Option String
deriving DecidableEq, Repr

/-- The `checks` object of the verify response; `none` models the JSON
`null` of a check that is not applicable in the executing variant. -/
structure Checks where
  dbExists : Option Bool
  r2Access : Option Bool
  hashMatch : Option Bool
  onChain : Option Bool
  signature : Option Bool
deriving DecidableEq, Repr

/-- The serialized `GET /verify` response (claim-relevant fields). -/
structure VerifyGetResponse where
  status : Nat
  verified : Option Bool
  error : Option String
  hash : Option String
  checks : Option Checks
deriving DecidableEq, Repr

/-- Oracles a verify request runs against: payload decoding, certificate
store, chain reader, object store, presigned-URL fetch, hashing and the
signature scheme. -/
structure VerifyEnv where
  parsePayload : String → Except String ParsedPayload
  db : String → Option CertificateRecord
  chain : ChainReader
  fileExistsOracle : String → Except String Bool
  download : String → Except String Bytes
  fetchUrl : String → Option Bytes
  hashFn : Bytes → String
  sigPrim : SigPrimitive
  keys : KeyConfig

/-- Result of the target-hash resolution shared by every GET variant. -/
inductive ResolveResult where
  | bad (resp : VerifyGetResponse)
  | okRes (target : String) (payload : Option ParsedPayload)
deriving DecidableEq, Repr

/-- Target-hash resolution common to all `GET /verify` variants: a truthy
`p` is decoded (a decode/parse failure is a 400 distinct from a missing
parameter, and a decoded payload without a truthy `hash` is a 400
`Hash non trovato`); otherwise a truthy `hash` query parameter is used;
otherwise a 400 for the missing parameter. -/
def resolveTargetHash (env : VerifyEnv) (req : VerifyGetRequest) :
    ResolveResult :=
  if optTruthy req.p then
    match env.parsePayload (req.p.getD "") with
    | .error _ =>
      .bad { status := 400, verified := some false,
             error := some "Payload base64 non valido", hash := none,
             checks := none }
    | .ok payload =>
      if optTruthy payload.hash then .okRes (payload.hash.getD "") (some payload)
      else
        .bad { status := 400, verified := some false,
               error := some "Hash non trovato", hash := none, checks := none }
  else if optTruthy req.hash then
    .okRes (req.hash.getD "") none
  else
    .bad { status := 400, verified := some false,
           error := some "Parametro hash o p (payload) mancante",
           hash := none, checks := none }

/-- `verifyCertificate` from `src/routes/verify.ts` (the strict,
store-backed variant): a missing DB record short-circuits with every other
check `null`; otherwise the R2 access/recompute block, the optional
presigned-URL recompute, the chain read and the signature check run, and
the verdict requires all five checks. -/
def verifyCertificateStrict (env : VerifyEnv) (req : VerifyGetRequest) :
    VerifyGetResponse × List Effect :=
  match resolveTargetHash env req with
  | .bad resp => (resp, [])
  | .okRes target qrPayload =>
    match env.db target with
    | none =>
      ({ status := 200, verified := some false,
         error := some "Certificato non trovato nel database",
         hash := some target,
         checks := some { dbExists := some false, r2Access := none,
                          hashMatch := none, onChain := none,
                          signature := none } }, [])
    | some certificate =>
      let r2Pair :=
        match env.fileExistsOracle certificate.fileKey with
        | .error _ => (false, false)
        | .ok false => (false, false)
        | .ok true =>
          match env.download certificate.fileKey with
          | .error _ => (false, false)
          | .ok buf => (true, env.hashFn buf == target)
      let hashMatch :=
        match qrPayload with
        | some p =>
          if optTruthy p.presignedUrl then
            match env.fetchUrl (p.presignedUrl.getD "") with
            | some data => env.hashFn data == target
            | none => r2Pair.2
          else r2Pair.2
        | none => r2Pair.2
      let onChain := verifyOnChain env.chain target
      let sigToVerify :=
        jsOrStr (qrPayload.bind fun p => p.sig) certificate.signature
      let signatureOk :=
        if sigToVerify.isEmpty then false
        else verifySignatureCaught env.sigPrim env.keys target sigToVerify
      let verified := r2Pair.1 && hashMatch && onChain && signatureOk
      ({ status := 200, verified := some verified, error := none,
         hash := some target,
         checks := some { dbExists := some true, r2Access := some r2Pair.1,
                          hashMatch := some hashMatch,
                          onChain := some onChain,
                          signature := some signatureOk } },
       [.chainRead target])

/-- `verifyCertificate` from the chain-first source variant: the chain is
read before the store lookup, the S3 checks are disabled (`null`), and
the verdict is the chain answer alone — the DB and signature checks are
informative only. -/
def verifyCertificateChainFirst (env : VerifyEnv) (req : VerifyGetRequest) :
    VerifyGetResponse × List Effect :=
  match resolveTargetHash env req with
  | .bad resp => (resp, [])
  | .okRes target qrPayload =>
    let chainResponse := verifyHashOnChain env.chain target
    let certificate := env.db target
    let sigOpt :=
      jsOrOpt (qrPayload.bind fun p => p.sig)
        (certificate.map fun c => c.signature)
    let signatureOk :=
      if optTruthy sigOpt then
        verifySignatureCaught env.sigPrim env.keys target (sigOpt.getD "")
      else false
    ({ status := 200, verified := some chainResponse, error := none,
       hash := some target,
       checks := some { dbExists := some certificate.isSome,
                        r2Access := none, hashMatch := none,
                        onChain := some chainResponse,
                        signature := some signatureOk } },
     [.chainRead target])

/-- `verifyCertificate` from the minimal source variant: no store at all;
the verdict is the chain answer and, when a payload signature was
supplied, its validity. -/
def verifyCertificateMinimal (env : VerifyEnv) (req : VerifyGetRequest) :
    VerifyGetResponse × List Effect :=
  match resolveTargetHash env req with
  | .bad resp => (resp, [])
  | .okRes target qrPayload =>
    let chainResponse := verifyHashOnChain env.chain target
    let sigOpt := qrPayload.bind fun p => p.sig
    let signatureRequired := optTruthy sigOpt
    let signatureOk :=
      if signatureRequired then
        verifySignatureCaught env.sigPrim env.keys target (sigOpt.getD "")
      else false
    ({ status := 200,
       verified := some (chainResponse && (!signatureRequired || signatureOk)),
       error := none, hash := some target,
       checks := some { dbExists := none, r2Access := none, hashMatch := none,
                        onChain := some chainResponse,
                        signature := some signatureOk } },
     [.chainRead target])

/-- The serialized `POST /verify` response (`match` is `matchFlag`). -/
structure VerifyPostResponse where
  status : Nat
  verified : Option Bool
  error : Option String
  hash : Option String
  matchFlag : Option Bool
  certificate : Option CertificateView
deriving DecidableEq, Repr

/-- The `POST /verify` request: uploaded file and/or `hash` body field. -/
structure VerifyPostRequest where
  file : Option UploadedFile
  hash : Option String
deriving DecidableEq, Repr

/-- `verifyByFile` from `src/routes/verify.ts` (identical in the
chain-first variant file): the recomputed digest of an uploaded file
replaces the explicit hash; a missing record answers
`verified:false, match:false`; with a record, `match` compares the
recomputed digest to the target and the verdict equals `match`. -/
def verifyByFile (env : VerifyEnv) (req : VerifyPostRequest) :
    VerifyPostResponse :=
  if req.file.isNone && !optTruthy req.hash then
    { status := 400, verified := some false,
      error := some "File o hash richiesto", hash := none, matchFlag := none,
      certificate := none }
  else
    let targetHash :=
      match req.file with
      | some f => some (env.hashFn f.buffer)
      | none => req.hash
    if !optTruthy targetHash then
      { status := 400, verified := some false,
        error := some "Hash non disponibile", hash := none, matchFlag := none,
        certificate := none }
    else
      let target := targetHash.getD ""
      match env.db target with
      | none =>
        { status := 200, verified := some false,
          error := some "Certificato non trovato", hash := some target,
          matchFlag := some false, certificate := none }
      | some cert =>
        let m :=
          match req.file with
          | some f => env.hashFn f.buffer == target
          | none => false
        { status := 200, verified := some m, error := none,
          hash := some target, matchFlag := some m,
          certificate := some { fileKey := cert.fileKey, txHash := cert.txHash,
                                timestamp := cert.timestamp,
                                docType := cert.docType } }

/-! ## Account management (`src/routes/auth.ts`, `src/routes/users.ts`) -/

/-- A stored account document (`src/models/User.ts`). -/
structure Account where
  id : Nat
  email : String
  username : String
  passwordHash : String
  name : String
  surname : String
  role : String
  status : String
  isActive : Bool
  createdAt : Nat
  updatedAt : Nat
  lastLoginAt : Option Nat
deriving DecidableEq, Repr

/-- Oracles for the account handlers: the two uniqueness lookups, the
bcrypt primitive, the next sequential id and the clock. -/
structure AuthEnv where
  findByEmail : String → Option Account
  findByUsername : String → Option Account
  bcryptCompare : String → String → Bool
  bcryptHash : String → String
  nextId : Nat
  now : Nat

/-- The `POST /auth/login` request body. -/
structure LoginRequest where
  email : Option String
  password : Option String
deriving DecidableEq, Repr

/-- The `POST /auth/login` response: status, flags and the keys of the
serialized user object (empty on a failure path). -/
structure LoginResponse where
  status : Nat
  success : Bool
  error : Option String
  userKeys : List String
  lastLoginAt : Option Nat
deriving DecidableEq, Repr

/-- The keys of the user object returned by a successful login — the
source serializes exactly these fields, without `passwordHash`. -/
def loginUserKeys : List String :=
  ["id", "email", "username", "name", "surname", "role", "status",
   "isActive", "lastLoginAt"]

/-- `login` from `src/routes/auth.ts`: missing fields → 400; unknown
email → 401; inactive account or non-`active` status → 403; wrong
password → 401; otherwise `lastLoginAt` is set to the current time, the
account is saved and returned without the password hash.  The second
component is the account document written back, when any. -/
def login (env : AuthEnv) (req : LoginRequest) :
    LoginResponse × Option Account :=
  if !optTruthy req.email || !optTruthy req.password then
    ({ status := 400, success := false,
       error := some "Email e password sono richiesti", userKeys := [],
       lastLoginAt := none }, none)
  else
    match env.findByEmail (jsTrim (jsToLower (req.email.getD ""))) with
    | none =>
      ({ status := 401, success := false,
         error := some "Credenziali non valide", userKeys := [],
         lastLoginAt := none }, none)
    | some user =>
      if !user.isActive || user.status != "active" then
        ({ status := 403, success := false,
           error := some "Account non attivo", userKeys := [],
           lastLoginAt := none }, none)
      else if !env.bcryptCompare (req.password.getD "") user.passwordHash then
        ({ status := 401, success := false,
           error := some "Credenziali non valide", userKeys := [],
           lastLoginAt := none }, none)
      else
        ({ status := 200, success := true, error := none,
           userKeys := loginUserKeys, lastLoginAt := some env.now },
         some { user with lastLoginAt := some env.now })

/-- The `POST /users` request body. -/
structure CreateUserRequest where
  email : Option String
  username : Option String
  password : Option String
  name : Option String
  surname : Option String
  role : Option String
  status : Option String
  isActive : Option Bool
deriving DecidableEq, Repr

/-- The `POST /users` response (claim-relevant fields). -/
structure CreateUserResponse where
  status : Nat
  success : Bool
  error : Option String
deriving DecidableEq, Repr

/-- One `[^\s@]` character class of the email regex. -/
def emailChar (c : Char) : Bool := !c.isWhitespace && c != '@'

/-- The boolean test of the source regex
`/^[^\s@]+@[^\s@]+\.[^\s@]+$/`: since every class excludes `@`, a match
is exactly one `@` splitting the string into a nonempty local part and a
domain of non-whitespace non-`@` characters in which some dot has at
least one character on each side. -/
def emailRegexTest (s : String) : Bool :=
  match jsSplitOnChar '@' s with
  | [lp, dp] =>
    !lp.isEmpty && !dp.isEmpty &&
    lp.toList.all emailChar && dp.toList.all emailChar &&
    ((dp.toList.drop 1).dropLast.contains '.')
  | _ => false

/-- The closed role enumeration. -/
def allowedRoles : List String := ["admin", "issuer", "holder", "verifier"]

/-- The closed status enumeration. -/
def allowedStatuses : List String := ["active", "inactive", "suspended"]

/-- `createUser` from `src/routes/users.ts`: required-field check, email
regex, minimum password length, role and status enumerations (each only
when the field is truthy), email then username uniqueness, then the
account is built with defaults `role=verifier`, `status=active`,
`isActive=true` for absent fields and the hashed password.  The second
component is the saved account, when any. -/
def createUser (env : AuthEnv) (req : CreateUserRequest) :
    CreateUserResponse × Option Account :=
  if !optTruthy req.email || !optTruthy req.username ||
      !optTruthy req.password || !optTruthy req.name ||
      !optTruthy req.surname then
    ({ status := 400, success := false,
       error := some "Email, username, password, name e surname sono richiesti" },
     none)
  else if !emailRegexTest (req.email.getD "") then
    ({ status := 400, success := false,
       error := some "Formato email non valido" }, none)
  else if (req.password.getD "").length < 6 then
    ({ status := 400, success := false,
       error := some "La password deve contenere almeno 6 caratteri" }, none)
  else if optTruthy req.role && !(allowedRoles.contains (req.role.getD "")) then
    ({ status := 400, success := false, error := some "Ruolo non valido" },
     none)
  else if optTruthy req.status &&
      !(allowedStatuses.contains (req.status.getD "")) then
    ({ status := 400, success := false, error := some "Status non valido" },
     none)
  else if (env.findByEmail (jsTrim (jsToLower (req.email.getD "")))).isSome then
    ({ status := 409, success := false, error := some "Email già registrata" },
     none)
  else if (env.findByUsername (jsTrim (req.username.getD ""))).isSome then
    ({ status := 409, success := false,
       error := some "Username già utilizzato" }, none)
  else
    ({ status := 201, success := true, error := none },
     some { id := env.nextId
            email := jsTrim (jsToLower (req.email.getD ""))
            username := jsTrim (req.username.getD "")
            passwordHash := env.bcryptHash (req.password.getD "")
            name := jsTrim (req.name.getD "")
            surname := jsTrim (req.surname.getD "")
            role := jsOrStr req.role "verifier"
            status := jsOrStr req.status "active"
            isActive := req.isActive.getD true
            createdAt := env.now
            updatedAt := env.now
            lastLoginAt := none })

/-! ## Concrete oracles used by witnesses -/

/-- A toy deterministic signature primitive for witnesses: the signature
of a digest is the digest itself and verification compares strings. -/
def idSigPrim : SigPrimitive :=
  { sign := fun _ d => d, verify := fun _ d s => d == s }

/-- A configured key pair. -/
def cKeys : KeyConfig := { privateKey := "priv", publicKey := "pub" }

/-- A chain whose read always answers `true` (hash already present). -/
def dupChain : ChainReader := ⟨fun _ => .ok true⟩

/-- A chain whose read always answers `false` (hash absent). -/
def okChain : ChainReader := ⟨fun _ => .ok false⟩

/-- A chain whose read always throws (RPC down). -/
def errChain : ChainReader := ⟨fun _ => .error "RPC down"⟩

/-- A certify environment whose chain reports every hash as present. -/
def envDup : CertifyEnv :=
  { hashFn := fun _ => a64
    chain := dupChain
    ai := fun _ => .ok { document_type := none, compliance_score := none }
    store := fun _ => .ok "0xtxhash"
    sigPrim := idSigPrim
    keys := cKeys
    now := 1000
    issuer := "CertiFi"
    chainId := "84532"
    contractAddress := "0x0000000000000000000000000000000000000000" }

/-- The same environment with an absent hash on chain. -/
def envOk : CertifyEnv := { envDup with chain := okChain }

/-- The same environment with a failing chain read. -/
def envErr : CertifyEnv := { envDup with chain := errChain }

/-- A certify request carrying a `.pdf` file. -/
def reqPdf : CertifyRequest :=
  { file := some { buffer := [1, 2, 3], originalname := "doc.pdf",
                   mimetype := "application/pdf" }
    document_id := none, requested_tasks := none }

/-- A certify request whose filename has no extension. -/
def reqNoExt : CertifyRequest :=
  { file := some { buffer := [1, 2, 3], originalname := "readme",
                   mimetype := "text/plain" }
    document_id := none, requested_tasks := none }

/-- A 64-character string of `'b'`: a second distinct digest. -/
def b64 : String := String.mk (List.replicate 64 'b')

/-- A certificate record keyed by `a64`. -/
def certA : CertificateRecord :=
  { hash := a64, fileKey := "certificates/1-doc.pdf", txHash := "0xtxhash",
    timestamp := 1000, docType := "PDF", signature := "" }

/-- A verify environment with an empty store and an empty chain. -/
def vEnvEmpty : VerifyEnv :=
  { parsePayload := fun _ => .error "bad JSON"
    db := fun _ => none
    chain := okChain
    fileExistsOracle := fun _ => .ok false
    download := fun _ => .error "no object"
    fetchUrl := fun _ => none
    hashFn := fun _ => a64
    sigPrim := idSigPrim
    keys := cKeys }

/-- The same verify environment with the hash present on chain and a
payload decoding to `a64` together with an invalid signature. -/
def vEnvBadSig : VerifyEnv :=
  { vEnvEmpty with
    chain := dupChain
    parsePayload := fun _ =>
      .ok { hash := some a64, sig := some "bad", presignedUrl := none } }

/-- A verify environment whose store holds exactly the `a64` record and
whose hash oracle sends the original bytes `[1,2,3]` to `a64` and every
other buffer to `b64`. -/
def vEnvStore : VerifyEnv :=
  { vEnvEmpty with
    db := fun h => if h == a64 then some certA else none
    hashFn := fun b => if b == [1, 2, 3] then a64 else b64 }

/-- An active account whose bcrypt hash is `"H" ++ password`. -/
def acctActive : Account :=
  { id := 1, email := "u@x.co", username := "u", passwordHash := "Hsecret",
    name := "N", surname := "S", role := "verifier", status := "active",
    isActive := true, createdAt := 0, updatedAt := 0, lastLoginAt := none }

/-- The same account, deactivated. -/
def acctInactive : Account := { acctActive with isActive := false }

/-- An auth environment holding exactly `acctActive` under its email,
with a toy prefix-based bcrypt. -/
def aEnv : AuthEnv :=
  { findByEmail := fun e => if e == "u@x.co" then some acctActive else none
    findByUsername := fun u => if u == "u" then some acctActive else none
    bcryptCompare := fun p h => ("H" ++ p) == h
    bcryptHash := fun p => "H" ++ p
    nextId := 2
    now := 1000 }

/-- The same auth environment with the stored account deactivated. -/
def aEnvInact : AuthEnv :=
  { aEnv with
    findByEmail := fun e => if e == "u@x.co" then some acctInactive else none }

end Certifi

namespace Certifi

/-- C6 counterexample: `normalizeBytes32` accepts a 64-character string of
`'z'`, which is not a 64-hex-character string, so the normalization does
not reject every input outside the 64-hex / 66-with-prefix shapes. -/
theorem normalizeBytes32_accepts_non_hex :
    normalizeBytes32 z64 = .ok ("0x" ++ z64) ∧ isHexDigest64 z64 = false := by
  constructor
  · decide
  · decide

/-- C6 (amended): `normalizeBytes32` succeeds exactly when the input is
nonempty and its trimmed form is either a 66-character string starting
with `0x` or a 64-character string not starting with `0x` (hex-ness of
the characters is not checked); every accepted input is forwarded as a
66-character `0x`-prefixed string. -/
theorem normalizeBytes32_spec (s : String) :
    ((∃ out, normalizeBytes32 s = .ok out) ↔
      (¬ s.isEmpty ∧
        ((jsStartsWith (jsTrim s) "0x" ∧ (jsTrim s).length = 66) ∨
         (¬ jsStartsWith (jsTrim s) "0x" ∧ (jsTrim s).length = 64)))) ∧
    (∀ out, normalizeBytes32 s = .ok out →
      jsStartsWith out "0x" = true ∧ out.length = 66) := by
  constructor
  · constructor
    · intro ⟨out, hout⟩
      unfold normalizeBytes32 at hout
      split at hout
      · exact absurd hout (by simp)
      · next hne =>
        refine ⟨by simpa using hne, ?_⟩
        split at hout
        · next hpre =>
          split at hout
          · exact absurd hout (by simp)
          · next hlen => exact Or.inl ⟨hpre, by omega⟩
        · next hpre =>
          split at hout
          · exact absurd hout (by simp)
          · next hlen => exact Or.inr ⟨by simpa using hpre, by omega⟩
    · intro ⟨hne, hcases⟩
      unfold normalizeBytes32
      rw [if_neg (by simpa using hne)]
      rcases hcases with ⟨hpre, hlen⟩ | ⟨hpre, hlen⟩
      · rw [if_pos hpre, if_neg (by omega)]
        exact ⟨_, rfl⟩
      · rw [if_neg (by simpa using hpre), if_neg (by omega)]
        exact ⟨_, rfl⟩
  · intro out hout
    unfold normalizeBytes32 at hout
    split at hout
    · exact absurd hout (by simp)
    · split at hout
      · next hpre =>
        split at hout
        · exact absurd hout (by simp)
        · next hlen =>
          cases hout
          exact ⟨hpre, by omega⟩
      · next hpre =>
        split at hout
        · exact absurd hout (by simp)
        · next hlen =>
          cases hout
          constructor
          · simp [jsStartsWith, String.toList, String.data_append,
              List.isPrefixOf]
          · rw [String.length_append]
            have h2 : "0x".length = 2 := rfl
            omega

/-- C6 witness: the amended characterization evaluated at the concrete
digest `a64` (accepted, forwarded with a `0x` prefix) and at a short
string (rejected). -/
theorem normalizeBytes32_spec_witness :
    (∃ out, normalizeBytes32 a64 = .ok out) ∧
    jsStartsWith ("0x" ++ jsTrim a64) "0x" = true ∧
    ¬ ∃ out, normalizeBytes32 "abc" = .ok out := by
  refine ⟨?_, ?_, ?_⟩
  · exact (normalizeBytes32_spec a64).1.mpr (by decide)
  · exact ((normalizeBytes32_spec a64).2 ("0x" ++ jsTrim a64) (by decide)).1
  · intro h
    have := (normalizeBytes32_spec "abc").1.mp h
    revert this
    decide

/-- C1: when the duplicate check reports the digest as already on chain,
`certifyFile` answers 409 carrying that digest, and its only side effect
is the chain read itself: no on-chain write, no signature, no AI call and
no record write happen. -/
theorem certify_duplicate_conflict (env : CertifyEnv) (req : CertifyRequest)
    (file : UploadedFile) (hfile : req.file = some file)
    (hdup : verifyHashOnChain env.chain (env.hashFn file.buffer) = true) :
    (certifyFile env req).1.status = 409 ∧
    (certifyFile env req).1.hash = some (env.hashFn file.buffer) ∧
    (certifyFile env req).1.success = some false ∧
    (certifyFile env req).2 = [Effect.chainRead (env.hashFn file.buffer)] ∧
    (∀ h, Effect.chainWrite h ∉ (certifyFile env req).2) ∧
    (∀ h, Effect.signed h ∉ (certifyFile env req).2) ∧
    (∀ h, Effect.dbWrite h ∉ (certifyFile env req).2) ∧
    (∀ h, Effect.aiCall h ∉ (certifyFile env req).2) := by
  simp [certifyFile, hfile, hdup]

/-- C1 witness: the conflict response at a concrete duplicate request. -/
theorem certify_duplicate_conflict_witness :
    (certifyFile envDup reqPdf).1.status = 409 ∧
    (certifyFile envDup reqPdf).1.hash = some (envDup.hashFn [1, 2, 3]) ∧
    (certifyFile envDup reqPdf).1.success = some false ∧
    (certifyFile envDup reqPdf).2 =
      [Effect.chainRead (envDup.hashFn [1, 2, 3])] := by
  have h := certify_duplicate_conflict envDup reqPdf
    { buffer := [1, 2, 3], originalname := "doc.pdf",
      mimetype := "application/pdf" } rfl (by decide)
  exact ⟨h.1, h.2.1, h.2.2.1, h.2.2.2.1⟩

/-- C10: `verifyHashOnChain` swallows every failure — a digest rejected by
normalization and a throwing chain read both yield `false` (the same
value as "not yet certified") — and consequently a certify request whose
duplicate check fails on a chain error proceeds to submit the on-chain
write rather than failing with a dependency error. -/
theorem verifyHashOnChain_swallows_errors :
    (∀ chain h e, normalizeBytes32 h = .error e →
      verifyHashOnChain chain h = false) ∧
    (∀ chain h nh e, normalizeBytes32 h = .ok nh →
      chain.verify nh = .error e → verifyHashOnChain chain h = false) ∧
    (∀ env req file, req.file = some file →
      (∀ s, ∃ e, env.chain.verify s = .error e) →
      (∀ r e, env.ai r ≠ .error e) →
      verifyHashOnChain env.chain (env.hashFn file.buffer) = false ∧
      Effect.chainWrite (env.hashFn file.buffer) ∈ (certifyFile env req).2) := by
  refine ⟨?_, ?_, ?_⟩
  · intro chain h e he
    simp [verifyHashOnChain, he]
  · intro chain h nh e hok herr
    simp [verifyHashOnChain, hok, herr]
  · intro env req file hfile hchainerr hai
    have hv : verifyHashOnChain env.chain (env.hashFn file.buffer) = false := by
      unfold verifyHashOnChain
      cases hn : normalizeBytes32 (env.hashFn file.buffer) with
      | error e => rfl
      | ok nh =>
        obtain ⟨e, he⟩ := hchainerr nh
        simp [he]
    refine ⟨hv, ?_⟩
    simp only [certifyFile, hfile, hv, Bool.false_eq_true, if_false]
    split
    · next e heq => exact absurd heq (hai _ _)
    · split
      · simp
      · split <;> simp

/-- C10 witness: with a chain whose reads throw, `verifyHashOnChain` still
answers `false` both for a malformed digest and for a well-formed one, and
a concrete certify request proceeds to the on-chain write. -/
theorem verifyHashOnChain_swallows_errors_witness :
    verifyHashOnChain errChain "abc" = false ∧
    verifyHashOnChain errChain a64 = false ∧
    Effect.chainWrite (envErr.hashFn [1, 2, 3]) ∈ (certifyFile envErr reqPdf).2 := by
  refine ⟨?_, ?_, ?_⟩
  · exact verifyHashOnChain_swallows_errors.1 errChain "abc"
      "L'hash deve contenere 64 caratteri hex (32 byte)" (by decide)
  · exact verifyHashOnChain_swallows_errors.2.1 errChain a64 ("0x" ++ a64)
      "RPC down" (by decide) rfl
  · exact (verifyHashOnChain_swallows_errors.2.2 envErr reqPdf
      { buffer := [1, 2, 3], originalname := "doc.pdf",
        mimetype := "application/pdf" }
      rfl (fun _ => ⟨"RPC down", rfl⟩) (fun _ _ h => nomatch h)).2

/-- The toy primitive with the concrete key pair forms a correct scheme. -/
theorem idSigPrim_correct : CorrectScheme idSigPrim cKeys := by
  refine ⟨fun d => ?_, fun d d' h => ?_, fun d s h => ?_⟩
  · simp [idSigPrim]
  · simp only [idSigPrim, beq_eq_false_iff_ne, ne_eq]
    exact h
  · simp only [idSigPrim, beq_eq_false_iff_ne, ne_eq]
    exact Ne.symm h

/-- C5: when both keys are configured and the underlying primitive is a
correct deterministic scheme over them, signing a digest then verifying
it succeeds with `true`; verifying a tampered digest or a tampered
signature yields `false`; and the handler-side catch boundary converts a
thrown verification error into `false` instead of propagating it. -/
theorem sign_verify_roundtrip (prim : SigPrimitive) (cfg : KeyConfig)
    (hcs : CorrectScheme prim cfg)
    (hpriv : ¬ cfg.privateKey.isEmpty) (hpub : ¬ cfg.publicKey.isEmpty)
    (d : String) :
    signHash prim cfg d = .ok (prim.sign cfg.privateKey d) ∧
    verifySignature prim cfg d (prim.sign cfg.privateKey d) = .ok true ∧
    verifySignatureCaught prim cfg d (prim.sign cfg.privateKey d) = true ∧
    (∀ d', d' ≠ d →
      verifySignature prim cfg d' (prim.sign cfg.privateKey d) = .ok false) ∧
    (∀ s, s ≠ prim.sign cfg.privateKey d →
      verifySignature prim cfg d s = .ok false) ∧
    (∀ h s e, verifySignature prim cfg h s = .error e →
      verifySignatureCaught prim cfg h s = false) := by
  obtain ⟨h1, h2, h3⟩ := hcs
  refine ⟨?_, ?_, ?_, ?_, ?_, ?_⟩
  · simp [signHash, hpriv]
  · simp [verifySignature, hpub, h1 d]
  · simp [verifySignatureCaught, verifySignature, hpub, h1 d]
  · intro d' hd
    simp [verifySignature, hpub, h2 d d' hd]
  · intro s hs
    simp [verifySignature, hpub, h3 d s hs]
  · intro h s e he
    simp [verifySignatureCaught, he]

/-- C5 witness: the round-trip and the two tamper cases at the concrete
scheme and digest. -/
theorem sign_verify_roundtrip_witness :
    signHash idSigPrim cKeys "digest" = .ok "digest" ∧
    verifySignature idSigPrim cKeys "digest" "digest" = .ok true ∧
    verifySignature idSigPrim cKeys "tampered" "digest" = .ok false ∧
    verifySignature idSigPrim cKeys "digest" "bad" = .ok false := by
  have h := sign_verify_roundtrip idSigPrim cKeys idSigPrim_correct
    (by decide) (by decide) "digest"
  exact ⟨h.1, h.2.1, h.2.2.2.1 "tampered" (by decide),
    h.2.2.2.2.1 "bad" (by decide)⟩

/-! ### List lemmas about the JS split, for the docType characterization -/

/-- Splitting never yields the empty list. -/
theorem splitOnCharList_ne_nil (sep : Char) (l : List Char) :
    splitOnCharList sep l ≠ [] := by
  cases l with
  | nil => simp [splitOnCharList]
  | cons c cs =>
    unfold splitOnCharList
    by_cases h : c = sep
    · simp [h]
    · simp only [if_neg h]
      split <;> simp

/-- Splitting a list without the separator yields the singleton. -/
theorem splitOnCharList_of_not_mem (sep : Char) (l : List Char)
    (h : sep ∉ l) : splitOnCharList sep l = [l] := by
  induction l with
  | nil => rfl
  | cons c cs ih =>
    have h1 : ¬ c = sep := fun hc => h (by simp [hc])
    have h2 : sep ∉ cs := fun hc => h (List.mem_cons_of_mem _ hc)
    simp [splitOnCharList, h1, ih h2]

/-- The split is homomorphic across an occurrence of the separator. -/
theorem splitOnCharList_append (sep : Char) (l₁ l₂ : List Char) :
    splitOnCharList sep (l₁ ++ sep :: l₂) =
      splitOnCharList sep l₁ ++ splitOnCharList sep l₂ := by
  induction l₁ with
  | nil => simp [splitOnCharList]
  | cons c cs ih =>
    by_cases h : c = sep
    · subst h
      simp [splitOnCharList, ih]
    · simp only [List.cons_append, splitOnCharList, if_neg h]
      cases hs : splitOnCharList sep cs with
      | nil => exact absurd hs (splitOnCharList_ne_nil sep cs)
      | cons r rs =>
        simp only [List.append_eq]
        rw [ih, hs]
        simp

/-- `getLastD` of a nonempty list ignores the default. -/
theorem getLastD_irrel {α : Type} (l : List α) (h : l ≠ []) (a b : α) :
    l.getLastD a = l.getLastD b := by
  cases l with
  | nil => exact absurd rfl h
  | cons x xs => rw [List.getLastD_cons, List.getLastD_cons]

/-- `getLastD` of an append with a nonempty right part. -/
theorem getLastD_append_right {α : Type} (l₁ l₂ : List α) (h : l₂ ≠ [])
    (d : α) : (l₁ ++ l₂).getLastD d = l₂.getLastD d := by
  induction l₁ with
  | nil => rfl
  | cons x xs ih =>
    have hne : xs ++ l₂ ≠ [] := by
      simp only [ne_eq, List.append_eq_nil]
      exact fun hc => h hc.2
    calc ((x :: xs) ++ l₂).getLastD d
        = (xs ++ l₂).getLastD x := by rw [List.cons_append, List.getLastD_cons]
      _ = (xs ++ l₂).getLastD d := getLastD_irrel _ hne _ _
      _ = l₂.getLastD d := ih

/-- The character list of an appended string. -/
theorem toList_append (s t : String) :
    (s ++ t).toList = s.toList ++ t.toList := by
  simp [String.toList, String.data_append]

/-- Rebuilding a string from its character list is the identity. -/
theorem mk_toList (s : String) : String.mk s.toList = s := rfl

/-- `getLastD` of a singleton. -/
theorem getLastD_single {α : Type} (x d : α) : [x].getLastD d = x := by
  rw [List.getLastD_cons, List.getLastD_nil]

/-- C7 counterexample: certifying a file named `readme` (no extension)
succeeds with `docType` equal to `README`, the uppercased whole filename,
not `UNKNOWN` as the claim requires for an extensionless name. -/
theorem certify_docType_counterexample :
    (certifyFile envOk reqNoExt).1.status = 200 ∧
    (certifyFile envOk reqNoExt).1.docType = some "README" ∧
    ('.' ∉ "readme".toList) ∧ "README" ≠ "UNKNOWN" := by
  decide

/-- C7 (amended): on the certify success path both the response `docType`
and the QR payload `docType` equal the uppercase of the substring after
the last dot of the filename; for a filename with at least one dot and a
dot-free nonempty extension this is the uppercased extension; a dotless
nonempty filename yields the whole filename uppercased (not `UNKNOWN`);
`UNKNOWN` is produced when the last dot-separated component is empty
(empty filename, or a filename ending in a dot). -/
theorem certify_docType (env : CertifyEnv) (req : CertifyRequest)
    (file : UploadedFile) (hfile : req.file = some file)
    (hndup : verifyHashOnChain env.chain (env.hashFn file.buffer) = false)
    (hai : ∀ r e, env.ai r ≠ .error e)
    (hstore : ∀ h i, env.store h ≠ .error i)
    (hpriv : ¬ env.keys.privateKey.isEmpty) :
    ((certifyFile env req).1.docType = some (docTypeOf file.originalname) ∧
     ∃ qr, (certifyFile env req).1.qrPayload = some qr ∧
       qr.docType = docTypeOf file.originalname) ∧
    (∀ stem ext, ext ≠ "" → '.' ∉ ext.toList →
      docTypeOf (stem ++ "." ++ ext) = jsToUpper ext) ∧
    (∀ name, name ≠ "" → '.' ∉ name.toList →
      docTypeOf name = jsToUpper name) ∧
    (∀ name, (jsSplitOnChar '.' name).getLastD "" = "" →
      docTypeOf name = "UNKNOWN") := by
  refine ⟨?_, ?_, ?_, ?_⟩
  · simp only [certifyFile, hfile, hndup, Bool.false_eq_true, if_false]
    split
    · next e heq => exact absurd heq (hai _ _)
    · split
      · next i heq => exact absurd heq (hstore _ _)
      · simp [signHash, hpriv]
  · intro stem ext hne hnd
    unfold docTypeOf jsSplitOnChar
    have h1 : (stem ++ "." ++ ext).toList = stem.toList ++ '.' :: ext.toList := by
      rw [toList_append, toList_append, List.append_assoc]
      rfl
    rw [h1, splitOnCharList_append, splitOnCharList_of_not_mem _ _ hnd,
      List.map_append]
    rw [getLastD_append_right _ _ (by simp) _]
    simp only [List.map_cons, List.map_nil, mk_toList]
    rw [getLastD_single]
    rw [if_neg (by simpa [String.isEmpty_iff] using hne)]
  · intro name hne hnd
    unfold docTypeOf jsSplitOnChar
    rw [splitOnCharList_of_not_mem _ _ hnd]
    simp only [List.map_cons, List.map_nil, mk_toList]
    rw [getLastD_single]
    rw [if_neg (by simpa [String.isEmpty_iff] using hne)]
  · intro name hlast
    unfold docTypeOf
    rw [hlast]
    rfl

/-- C7 witness: the amended statement at a concrete successful request
(`doc.pdf` gives `PDF`) and at the concrete names used in its clauses. -/
theorem certify_docType_witness :
    (certifyFile envOk reqPdf).1.docType = some (docTypeOf "doc.pdf") ∧
    docTypeOf ("doc" ++ "." ++ "pdf") = jsToUpper "pdf" ∧
    docTypeOf "readme" = jsToUpper "readme" ∧
    docTypeOf "file." = "UNKNOWN" := by
  have h := certify_docType envOk reqPdf
    { buffer := [1, 2, 3], originalname := "doc.pdf",
      mimetype := "application/pdf" }
    rfl (by decide) (fun _ _ hc => nomatch hc) (fun _ _ hc => nomatch hc)
    (by decide)
  exact ⟨h.1.1, h.2.1 "doc" "pdf" (by decide) (by decide),
    h.2.2.1 "readme" (by decide) (by decide),
    h.2.2.2 "file." (by decide)⟩

/-- C2 counterexample: in the strict variant, a resolved hash that was
never certified (empty store, chain would answer `false`) short-circuits
on the missing DB record: the response says `verified:false` but
`checks.onChain` is `null`, not `false`, and no chain read happens. -/
theorem verify_strict_skips_chain_counterexample :
    (verifyCertificateStrict vEnvEmpty { hash := some a64, p := none }).1.verified
      = some false ∧
    (verifyCertificateStrict vEnvEmpty { hash := some a64, p := none }).1.checks
      = some { dbExists := some false, r2Access := none, hashMatch := none,
               onChain := none, signature := none } ∧
    (verifyCertificateStrict vEnvEmpty { hash := some a64, p := none }).2 = [] ∧
    vEnvEmpty.chain.verify ("0x" ++ a64) = .ok false := by
  decide

/-- C2 (amended): in the chain-first and minimal variants every request
that resolves a target hash performs the on-chain check, and a hash the
chain does not hold yields `verified:false` with `checks.onChain:false`;
in the strict variant the chain check runs only when a DB record exists —
with no record the handler answers `verified:false` with
`checks.onChain:null` and performs no chain read. -/
theorem verify_onchain_check (env : VerifyEnv) (req : VerifyGetRequest)
    (target : String) (payload : Option ParsedPayload)
    (hres : resolveTargetHash env req = .okRes target payload) :
    (Effect.chainRead target ∈ (verifyCertificateChainFirst env req).2 ∧
     Effect.chainRead target ∈ (verifyCertificateMinimal env req).2) ∧
    (verifyHashOnChain env.chain target = false →
      (verifyCertificateChainFirst env req).1.verified = some false ∧
      (∃ c, (verifyCertificateChainFirst env req).1.checks = some c ∧
        c.onChain = some false) ∧
      (verifyCertificateMinimal env req).1.verified = some false ∧
      ∃ c, (verifyCertificateMinimal env req).1.checks = some c ∧
        c.onChain = some false) ∧
    (env.db target = none →
      (verifyCertificateStrict env req).1.verified = some false ∧
      (verifyCertificateStrict env req).1.checks =
        some { dbExists := some false, r2Access := none, hashMatch := none,
               onChain := none, signature := none } ∧
      (verifyCertificateStrict env req).2 = []) := by
  refine ⟨?_, ?_, ?_⟩
  · constructor
    · simp [verifyCertificateChainFirst, hres]
    · simp [verifyCertificateMinimal, hres]
  · intro hchain
    refine ⟨?_, ?_, ?_, ?_⟩
    · simp [verifyCertificateChainFirst, hres, hchain]
    · simp [verifyCertificateChainFirst, hres, hchain]
    · simp [verifyCertificateMinimal, hres, hchain]
    · simp [verifyCertificateMinimal, hres, hchain]
  · intro hdb
    simp [verifyCertificateStrict, hres, hdb]

/-- C2 witness: the amended statement at the empty-store environment,
covering both chain-first and minimal verdicts and the strict early
return. -/
theorem verify_onchain_check_witness :
    Effect.chainRead a64
      ∈ (verifyCertificateChainFirst vEnvEmpty { hash := some a64, p := none }).2 ∧
    Effect.chainRead a64
      ∈ (verifyCertificateMinimal vEnvEmpty { hash := some a64, p := none }).2 ∧
    (verifyCertificateChainFirst vEnvEmpty { hash := some a64, p := none }).1.verified
      = some false ∧
    (verifyCertificateMinimal vEnvEmpty { hash := some a64, p := none }).1.verified
      = some false ∧
    (verifyCertificateStrict vEnvEmpty { hash := some a64, p := none }).1.checks
      = some { dbExists := some false, r2Access := none, hashMatch := none,
               onChain := none, signature := none } := by
  have h := verify_onchain_check vEnvEmpty { hash := some a64, p := none }
    a64 none (by decide)
  exact ⟨h.1.1, h.1.2, (h.2.1 (by decide)).1, (h.2.1 (by decide)).2.2.1,
    (h.2.2 rfl).2.1⟩

/-- C3 counterexample: in the chain-first variant, a payload supplying an
invalid signature over a hash that is on chain still verifies — the
response has `verified:true` with `checks.signature:false`, contradicting
the `onChain AND (no signature OR signature valid)` policy. -/
theorem verify_verdict_counterexample :
    (verifyCertificateChainFirst vEnvBadSig { hash := none, p := some "qr" }).1.verified
      = some true ∧
    (verifyCertificateChainFirst vEnvBadSig { hash := none, p := some "qr" }).1.checks
      = some { dbExists := some false, r2Access := none, hashMatch := none,
               onChain := some true, signature := some false } := by
  decide

/-- C3 (amended): the strict variant verifies exactly when all five checks
pass; the minimal variant verifies exactly when the hash is on chain and
either no payload signature was supplied or it is valid; the third
(chain-first) variant sets `verified` to the chain answer alone, a
supplied invalid signature notwithstanding. -/
theorem verify_verdict_policies (env : VerifyEnv) (req : VerifyGetRequest)
    (target : String) (payload : Option ParsedPayload)
    (hres : resolveTargetHash env req = .okRes target payload) :
    ((verifyCertificateStrict env req).1.verified = some true ↔
      ∃ c, (verifyCertificateStrict env req).1.checks = some c ∧
        c.dbExists = some true ∧ c.r2Access = some true ∧
        c.hashMatch = some true ∧ c.onChain = some true ∧
        c.signature = some true) ∧
    ((verifyCertificateMinimal env req).1.verified = some true ↔
      (verifyHashOnChain env.chain target = true ∧
        (optTruthy (payload.bind fun p => p.sig) = false ∨
         verifySignatureCaught env.sigPrim env.keys target
           ((payload.bind fun p => p.sig).getD "") = true))) ∧
    (verifyCertificateChainFirst env req).1.verified =
      some (verifyHashOnChain env.chain target) := by
  refine ⟨?_, ?_, ?_⟩
  · cases hdb : env.db target with
    | none => simp [verifyCertificateStrict, hres, hdb]
    | some certificate =>
      simp only [verifyCertificateStrict, hres, hdb]
      simp [Bool.and_eq_true, and_assoc]
  · simp only [verifyCertificateMinimal, hres]
    cases hC : verifyHashOnChain env.chain target <;>
      cases hS : optTruthy (payload.bind fun p => p.sig) <;>
        simp [hC, hS]
  · simp [verifyCertificateChainFirst, hres]

/-- C3 witness: the amended statement at the empty store (strict verdict
false, no checks pass) and at the bad-signature environment (chain-first
verdict equals the chain answer). -/
theorem verify_verdict_policies_witness :
    ¬ (verifyCertificateStrict vEnvEmpty { hash := some a64, p := none }).1.verified
        = some true ∧
    (verifyCertificateChainFirst vEnvBadSig { hash := none, p := some "qr" }).1.verified
      = some (verifyHashOnChain vEnvBadSig.chain a64) := by
  have h1 := verify_verdict_policies vEnvEmpty { hash := some a64, p := none }
    a64 none (by decide)
  have h2 := verify_verdict_policies vEnvBadSig { hash := none, p := some "qr" }
    a64 (some { hash := some a64, sig := some "bad", presignedUrl := none })
    (by decide)
  refine ⟨fun hv => ?_, h2.2.2⟩
  obtain ⟨c, hc, hdbtrue, _⟩ := h1.1.mp hv
  have hev : (verifyCertificateStrict vEnvEmpty
      { hash := some a64, p := none }).1.checks
      = some { dbExists := some false, r2Access := none, hashMatch := none,
               onChain := none, signature := none } := by decide
  rw [hev] at hc
  injection hc with hcc
  rw [← hcc] at hdbtrue
  exact absurd hdbtrue (by decide)

/-- C4: in `verifyByFile` an uploaded file's recomputed digest supersedes
any explicit hash as the response hash and store-lookup key; when the
store holds a record under that digest the response has `match:true` and
`verified:true`, and when it does not (the altered-bytes case) the
response has `match:false` and `verified:false`. -/
theorem verifyByFile_spec (env : VerifyEnv) (req : VerifyPostRequest)
    (f : UploadedFile) (hfile : req.file = some f)
    (hne : ¬ (env.hashFn f.buffer).isEmpty) :
    (verifyByFile env req).hash = some (env.hashFn f.buffer) ∧
    (∀ cert, env.db (env.hashFn f.buffer) = some cert →
      (verifyByFile env req).matchFlag = some true ∧
      (verifyByFile env req).verified = some true) ∧
    (env.db (env.hashFn f.buffer) = none →
      (verifyByFile env req).matchFlag = some false ∧
      (verifyByFile env req).verified = some false) := by
  cases hdb : env.db (env.hashFn f.buffer) with
  | none => simp [verifyByFile, hfile, optTruthy, hne, hdb]
  | some cert => simp [verifyByFile, hfile, optTruthy, hne, hdb]

/-- C4 witness: uploading the originally-certified bytes `[1,2,3]`
(digest `a64`, in the store) verifies with `match:true` even with a bogus
explicit hash, and uploading altered bytes `[9]` (digest `b64`, absent)
yields `match:false` and `verified:false`. -/
theorem verifyByFile_spec_witness :
    (verifyByFile vEnvStore
      { file := some { buffer := [1, 2, 3], originalname := "doc.pdf",
                       mimetype := "application/pdf" },
        hash := some "ignored" }).hash = some a64 ∧
    (verifyByFile vEnvStore
      { file := some { buffer := [1, 2, 3], originalname := "doc.pdf",
                       mimetype := "application/pdf" },
        hash := some "ignored" }).matchFlag = some true ∧
    (verifyByFile vEnvStore
      { file := some { buffer := [1, 2, 3], originalname := "doc.pdf",
                       mimetype := "application/pdf" },
        hash := some "ignored" }).verified = some true ∧
    (verifyByFile vEnvStore
      { file := some { buffer := [9], originalname := "doc.pdf",
                       mimetype := "application/pdf" },
        hash := none }).matchFlag = some false ∧
    (verifyByFile vEnvStore
      { file := some { buffer := [9], originalname := "doc.pdf",
                       mimetype := "application/pdf" },
        hash := none }).verified = some false := by
  have h1 := verifyByFile_spec vEnvStore
    { file := some { buffer := [1, 2, 3], originalname := "doc.pdf",
                     mimetype := "application/pdf" },
      hash := some "ignored" }
    { buffer := [1, 2, 3], originalname := "doc.pdf",
      mimetype := "application/pdf" } rfl (by decide)
  have h2 := verifyByFile_spec vEnvStore
    { file := some { buffer := [9], originalname := "doc.pdf",
                     mimetype := "application/pdf" },
      hash := none }
    { buffer := [9], originalname := "doc.pdf",
      mimetype := "application/pdf" } rfl (by decide)
  exact ⟨h1.1, (h1.2.1 certA (by decide)).1, (h1.2.1 certA (by decide)).2,
    (h2.2.2 (by decide)).1, (h2.2.2 (by decide)).2⟩

/-- C8: for a login request with both fields and a stored account under
the normalized email — 403 whenever the account is inactive or its status
is not `active`; 401 when the account passes the active check but the
password does not match the stored hash; on a match, 200 with
`lastLoginAt` set to the handler time (at least the request time) saved
back, and a serialized user without a `passwordHash` key. -/
theorem login_spec (env : AuthEnv) (req : LoginRequest) (acct : Account)
    (reqTime : Nat)
    (hemail : optTruthy req.email = true)
    (hpw : optTruthy req.password = true)
    (hfind : env.findByEmail (jsTrim (jsToLower (req.email.getD ""))) = some acct)
    (htime : reqTime ≤ env.now) :
    (¬ (acct.isActive = true ∧ acct.status = "active") →
      (login env req).1.status = 403 ∧ (login env req).2 = none) ∧
    (acct.isActive = true → acct.status = "active" →
      env.bcryptCompare (req.password.getD "") acct.passwordHash = false →
      (login env req).1.status = 401 ∧ (login env req).2 = none) ∧
    (acct.isActive = true → acct.status = "active" →
      env.bcryptCompare (req.password.getD "") acct.passwordHash = true →
      (login env req).1.status = 200 ∧
      (login env req).2 = some { acct with lastLoginAt := some env.now } ∧
      (login env req).1.lastLoginAt = some env.now ∧
      (∀ t, (login env req).1.lastLoginAt = some t → reqTime ≤ t) ∧
      "passwordHash" ∉ (login env req).1.userKeys) := by
  refine ⟨?_, ?_, ?_⟩
  · intro hnact
    cases hA : acct.isActive with
    | false => simp [login, hemail, hpw, hfind, hA]
    | true =>
      have hs : acct.status ≠ "active" := fun hc => hnact ⟨hA, hc⟩
      simp [login, hemail, hpw, hfind, hA, hs]
  · intro hA hs hpwf
    simp [login, hemail, hpw, hfind, hA, hs, hpwf]
  · intro hA hs hpwt
    refine ⟨?_, ?_, ?_, ?_, ?_⟩
    · simp [login, hemail, hpw, hfind, hA, hs, hpwt]
    · simp [login, hemail, hpw, hfind, hA, hs, hpwt]
    · simp [login, hemail, hpw, hfind, hA, hs, hpwt]
    · intro t ht
      simp [login, hemail, hpw, hfind, hA, hs, hpwt] at ht
      omega
    · simp [login, hemail, hpw, hfind, hA, hs, hpwt, loginUserKeys]

/-- C8 witness: at the concrete store — a correct login answers 200 with
`lastLoginAt = 1000 ≥ 500` and no `passwordHash` key; a wrong password on
the active account answers 401; the deactivated account answers 403 even
with the correct password. -/
theorem login_spec_witness :
    (login aEnv { email := some "U@x.co", password := some "secret" }).1.status
      = 200 ∧
    (login aEnv { email := some "U@x.co", password := some "secret" }).1.lastLoginAt
      = some 1000 ∧
    "passwordHash"
      ∉ (login aEnv { email := some "U@x.co", password := some "secret" }).1.userKeys ∧
    (login aEnv { email := some "U@x.co", password := some "bad" }).1.status
      = 401 ∧
    (login aEnvInact { email := some "u@x.co", password := some "secret" }).1.status
      = 403 := by
  have h1 := login_spec aEnv { email := some "U@x.co", password := some "secret" }
    acctActive 500 (by decide) (by decide) (by decide) (by decide)
  have h2 := login_spec aEnv { email := some "U@x.co", password := some "bad" }
    acctActive 500 (by decide) (by decide) (by decide) (by decide)
  have h3 := login_spec aEnvInact
    { email := some "u@x.co", password := some "secret" }
    acctInactive 500 (by decide) (by decide) (by decide) (by decide)
  exact ⟨(h1.2.2 rfl rfl (by decide)).1, (h1.2.2 rfl rfl (by decide)).2.2.1,
    (h1.2.2 rfl rfl (by decide)).2.2.2.2,
    (h2.2.1 rfl rfl (by decide)).1,
    (h3.1 (by decide)).1⟩

/-- `a || b` on an optional string falls through to `b` when `a` is
absent or empty. -/
theorem jsOrStr_of_falsy (a : Option String) (b : String)
    (h : optTruthy a = false) : jsOrStr a b = b := by
  cases a with
  | none => rfl
  | some s =>
    simp [optTruthy] at h
    simp [jsOrStr, h]

/-- C9 counterexample: a creation request carrying `role: ""` — a value
outside the closed role enumeration — is not rejected with a 400: it
succeeds with 201 and the default role `verifier`, because the source
only validates a truthy role. -/
theorem createUser_empty_role_counterexample :
    (createUser aEnv
      { email := some "a@b.co", username := some "u2",
        password := some "secret", name := some "N", surname := some "S",
        role := some "", status := none, isActive := none }).1.status = 201 ∧
    allowedRoles.contains "" = false ∧
    (createUser aEnv
      { email := some "a@b.co", username := some "u2",
        password := some "secret", name := some "N", surname := some "S",
        role := some "", status := none, isActive := none }).2
      = some { id := 2, email := "a@b.co", username := "u2",
               passwordHash := "Hsecret", name := "N", surname := "S",
               role := "verifier", status := "active", isActive := true,
               createdAt := 1000, updatedAt := 1000, lastLoginAt := none } := by
  decide

/-- C9 (amended): with the five required fields present, creation rejects
with 400 a failing email regex, then a password under 6 characters, then
a truthy role outside the enumeration, then a truthy status outside the
enumeration (an empty-string role or status is treated as absent and
defaulted); past validation it rejects with 409 a case-folded-email
duplicate and then a trimmed-username duplicate; on success with absent
role, status and isActive it saves the account with defaults
`role=verifier`, `status=active`, `isActive=true` and the bcrypt-hashed
password. -/
theorem createUser_spec (env : AuthEnv) (req : CreateUserRequest)
    (he : optTruthy req.email = true) (hu : optTruthy req.username = true)
    (hp : optTruthy req.password = true) (hn : optTruthy req.name = true)
    (hs : optTruthy req.surname = true) :
    (emailRegexTest (req.email.getD "") = false →
      (createUser env req).1.status = 400 ∧ (createUser env req).2 = none) ∧
    (emailRegexTest (req.email.getD "") = true →
      (req.password.getD "").length < 6 →
      (createUser env req).1.status = 400 ∧ (createUser env req).2 = none) ∧
    (emailRegexTest (req.email.getD "") = true →
      ¬ (req.password.getD "").length < 6 →
      optTruthy req.role = true →
      allowedRoles.contains (req.role.getD "") = false →
      (createUser env req).1.status = 400 ∧ (createUser env req).2 = none) ∧
    (emailRegexTest (req.email.getD "") = true →
      ¬ (req.password.getD "").length < 6 →
      (optTruthy req.role = false ∨
        allowedRoles.contains (req.role.getD "") = true) →
      optTruthy req.status = true →
      allowedStatuses.contains (req.status.getD "") = false →
      (createUser env req).1.status = 400 ∧ (createUser env req).2 = none) ∧
    (emailRegexTest (req.email.getD "") = true →
      ¬ (req.password.getD "").length < 6 →
      (optTruthy req.role = false ∨
        allowedRoles.contains (req.role.getD "") = true) →
      (optTruthy req.status = false ∨
        allowedStatuses.contains (req.status.getD "") = true) →
      (env.findByEmail (jsTrim (jsToLower (req.email.getD "")))).isSome = true →
      (createUser env req).1.status = 409 ∧ (createUser env req).2 = none) ∧
    (emailRegexTest (req.email.getD "") = true →
      ¬ (req.password.getD "").length < 6 →
      (optTruthy req.role = false ∨
        allowedRoles.contains (req.role.getD "") = true) →
      (optTruthy req.status = false ∨
        allowedStatuses.contains (req.status.getD "") = true) →
      (env.findByEmail (jsTrim (jsToLower (req.email.getD "")))).isSome = false →
      (env.findByUsername (jsTrim (req.username.getD ""))).isSome = true →
      (createUser env req).1.status = 409 ∧ (createUser env req).2 = none) ∧
    (emailRegexTest (req.email.getD "") = true →
      ¬ (req.password.getD "").length < 6 →
      optTruthy req.role = false → optTruthy req.status = false →
      req.isActive = none →
      (env.findByEmail (jsTrim (jsToLower (req.email.getD "")))).isSome = false →
      (env.findByUsername (jsTrim (req.username.getD ""))).isSome = false →
      (createUser env req).1.status = 201 ∧
      ∃ u, (createUser env req).2 = some u ∧
        u.role = "verifier" ∧ u.status = "active" ∧ u.isActive = true ∧
        u.passwordHash = env.bcryptHash (req.password.getD "") ∧
        u.email = jsTrim (jsToLower (req.email.getD "")) ∧
        u.username = jsTrim (req.username.getD "")) := by
  refine ⟨?_, ?_, ?_, ?_, ?_, ?_, ?_⟩
  · intro hbad
    simp [createUser, he, hu, hp, hn, hs, hbad]
  · intro hok hshort
    simp [createUser, he, hu, hp, hn, hs, hok, hshort]
  · intro hok hlong hrt hrb
    have hrb2 : req.role.getD "" ∉ allowedRoles := by simpa using hrb
    simp [createUser, he, hu, hp, hn, hs, hok, hlong, hrt, hrb2]
  · intro hok hlong hrole hst hsb
    have hsb2 : req.status.getD "" ∉ allowedStatuses := by simpa using hsb
    rcases hrole with hr | hr
    · simp [createUser, he, hu, hp, hn, hs, hok, hlong, hr, hst, hsb2]
    · have hr2 : req.role.getD "" ∈ allowedRoles := by simpa using hr
      simp [createUser, he, hu, hp, hn, hs, hok, hlong, hr2, hst, hsb2]
  · intro hok hlong hrole hstatus hdupE
    have hrole2 : optTruthy req.role = false ∨ req.role.getD "" ∈ allowedRoles := by
      rcases hrole with hr | hr
      · exact Or.inl hr
      · exact Or.inr (by simpa using hr)
    have hstatus2 : optTruthy req.status = false ∨
        req.status.getD "" ∈ allowedStatuses := by
      rcases hstatus with hq | hq
      · exact Or.inl hq
      · exact Or.inr (by simpa using hq)
    rcases hrole2 with hr | hr <;> rcases hstatus2 with hq | hq <;>
      simp [createUser, he, hu, hp, hn, hs, hok, hlong, hr, hq, hdupE]
  · intro hok hlong hrole hstatus hdupE hdupU
    have hrole2 : optTruthy req.role = false ∨ req.role.getD "" ∈ allowedRoles := by
      rcases hrole with hr | hr
      · exact Or.inl hr
      · exact Or.inr (by simpa using hr)
    have hstatus2 : optTruthy req.status = false ∨
        req.status.getD "" ∈ allowedStatuses := by
      rcases hstatus with hq | hq
      · exact Or.inl hq
      · exact Or.inr (by simpa using hq)
    rcases hrole2 with hr | hr <;> rcases hstatus2 with hq | hq <;>
      simp [createUser, he, hu, hp, hn, hs, hok, hlong, hr, hq, hdupE, hdupU]
  · intro hok hlong hrf hsf hia hdupE hdupU
    refine ⟨?_, ?_⟩
    · simp [createUser, he, hu, hp, hn, hs, hok, hlong, hrf, hsf, hdupE, hdupU]
    · have hsaved : (createUser env req).2 =
          some { id := env.nextId
                 email := jsTrim (jsToLower (req.email.getD ""))
                 username := jsTrim (req.username.getD "")
                 passwordHash := env.bcryptHash (req.password.getD "")
                 name := jsTrim (req.name.getD "")
                 surname := jsTrim (req.surname.getD "")
                 role := jsOrStr req.role "verifier"
                 status := jsOrStr req.status "active"
                 isActive := req.isActive.getD true
                 createdAt := env.now
                 updatedAt := env.now
                 lastLoginAt := none } := by
        simp [createUser, he, hu, hp, hn, hs, hok, hlong, hrf, hsf, hdupE,
          hdupU]
      refine ⟨_, hsaved, ?_, ?_, ?_, rfl, rfl, rfl⟩
      · exact jsOrStr_of_falsy _ _ hrf
      · exact jsOrStr_of_falsy _ _ hsf
      · simp [hia]

/-- C9 witness: the amended statement at concrete requests — 400 for a
malformed email, 409 for a duplicate email and for a duplicate username,
and 201 with the defaults for a clean request without role, status or
isActive. -/
theorem createUser_spec_witness :
    (createUser aEnv
      { email := some "nope", username := some "u2", password := some "secret",
        name := some "N", surname := some "S", role := none, status := none,
        isActive := none }).1.status = 400 ∧
    (createUser aEnv
      { email := some "u@x.co", username := some "u2",
        password := some "secret", name := some "N", surname := some "S",
        role := none, status := none, isActive := none }).1.status = 409 ∧
    (createUser aEnv
      { email := some "b@c.co", username := some "u",
        password := some "secret", name := some "N", surname := some "S",
        role := none, status := none, isActive := none }).1.status = 409 ∧
    (createUser aEnv
      { email := some "a@b.co", username := some "u2",
        password := some "secret", name := some "N", surname := some "S",
        role := none, status := none, isActive := none }).1.status = 201 := by
  have h1 := createUser_spec aEnv
    { email := some "nope", username := some "u2", password := some "secret",
      name := some "N", surname := some "S", role := none, status := none,
      isActive := none }
    (by decide) (by decide) (by decide) (by decide) (by decide)
  have h2 := createUser_spec aEnv
    { email := some "u@x.co", username := some "u2",
      password := some "secret", name := some "N", surname := some "S",
      role := none, status := none, isActive := none }
    (by decide) (by decide) (by decide) (by decide) (by decide)
  have h3 := createUser_spec aEnv
    { email := some "b@c.co", username := some "u",
      password := some "secret", name := some "N", surname := some "S",
      role := none, status := none, isActive := none }
    (by decide) (by decide) (by decide) (by decide) (by decide)
  have h4 := createUser_spec aEnv
    { email := some "a@b.co", username := some "u2",
      password := some "secret", name := some "N", surname := some "S",
      role := none, status := none, isActive := none }
    (by decide) (by decide) (by decide) (by decide) (by decide)
  exact ⟨(h1.1 (by decide)).1,
    (h2.2.2.2.2.1 (by decide) (by decide) (Or.inl (by decide))
      (Or.inl (by decide)) (by decide)).1,
    (h3.2.2.2.2.2.1 (by decide) (by decide) (Or.inl (by decide))
      (Or.inl (by decide)) (by decide) (by decide)).1,
    (h4.2.2.2.2.2.2 (by decide) (by decide) (by decide) (by decide) rfl
      (by decide) (by decide)).1⟩

end Certifi
